import Mathlib

/-!
Verification of the aggregation engine of `app.py` (daily / period delivery
reports).  The Python source is shallowly embedded: pandas DataFrames become a
list of rows plus one presence flag per column that the code tests with
`'COL' in df.columns`; timestamps become a calendar-day index paired with a
time-of-day in seconds; `raise ValueError` / pandas `KeyError` become an
`Except` error type.  Python `round(x, k)` (round-half-to-even) on the
percentage expressions is embedded exactly over the integers: a value rounded
to `k` decimals is stored as the integer number of `10^-k` units
(`TD_PCT = 1234` means `12.34 %`), computed by `rheDiv`, the
round-half-to-even integer division.  All definitions are executable.
-/

namespace Oliveira

/-- Round-half-to-even division of integers: `rheDiv a b` is Python
`round(a / b)` for `b > 0`, the integer nearest to `a / b`, ties going to the
even integer.  Used to embed `round(x, 1)` and `round(x, 2)` exactly (after
scaling `x` by `10` resp. `100`). -/
def rheDiv (a b : ℤ) : ℤ :=
  let f := a.fdiv b
  let r := a - b * f
  if 2 * r < b then f
  else if b < 2 * r then f + 1
  else if f % 2 = 0 then f else f + 1

/-- Lower-case an ASCII letter; other characters are untouched.  Embeds the
effect of pandas `case=False` matching on the ASCII keywords used by the
source (`'Entregue'`, `'Devolvido'`, `'Em Entrega'`, `'MOTORISTA'`). -/
def lcChar (c : Char) : Char :=
  if 65 ≤ c.toNat ∧ c.toNat ≤ 90 then Char.ofNat (c.toNat + 32) else c

/-- Boolean prefix test on character lists. -/
def prefB : List Char → List Char → Bool
  | [], _ => true
  | _ :: _, [] => false
  | a :: as, b :: bs => a == b && prefB as bs

/-- Boolean substring test on character lists. -/
def subB (p : List Char) : List Char → Bool
  | [] => prefB p []
  | b :: bs => prefB p (b :: bs) || subB p bs

/-- Case-insensitive substring test on strings: embeds
`series.str.contains(pat, case=False)` applied to a non-null cell. -/
def containsS (pat s : String) : Bool :=
  subB (pat.data.map lcChar) (s.data.map lcChar)

/-- Case-insensitive substring test on a nullable cell: embeds
`series.str.contains(pat, case=False, na=False)` (a missing cell matches
nothing). -/
def containsCI (pat : String) : Option String → Bool
  | none => false
  | some s => containsS pat s

/-- Strict lexicographic comparison of character lists by code point, the
order pandas uses to sort string columns. -/
def strLtB : List Char → List Char → Bool
  | [], [] => false
  | [], _ :: _ => true
  | _ :: _, [] => false
  | a :: as, b :: bs =>
    if a.toNat < b.toNat then true
    else if b.toNat < a.toNat then false
    else strLtB as bs

/-- Strict lexicographic order on strings by code point. -/
def strLt (s t : String) : Bool := strLtB s.data t.data

/-- Non-strict lexicographic order on strings by code point. -/
def strLe (s t : String) : Bool := strLt s t || s == t

/-- Insert an element into a list so that it lands before the first element
it is `le`-below; the auxiliary step of insertion sort. -/
def insertSorted (le : α → α → Bool) (a : α) : List α → List α
  | [] => [a]
  | b :: bs => if le a b then a :: b :: bs else b :: insertSorted le a bs

/-- Insertion sort by a boolean comparison.  It is a stable sorting algorithm,
so for the injective sort keys used below it produces the same row order as
pandas `sort_values`. -/
def sortBy (le : α → α → Bool) : List α → List α
  | [] => []
  | a :: as => insertSorted le a (sortBy le as)

/-- A timestamp: calendar-day index and time of day in seconds since
midnight.  Embeds a timezone-naive pandas datetime: `dt.date` is `day`,
`dt.time()` is `tod`. -/
structure Timestamp where
  day : ℕ
  tod : ℕ
deriving DecidableEq, Repr

/-- The five departure windows `'J1'..'J5'`. -/
inductive Janela
  | J1
  | J2
  | J3
  | J4
  | J5
deriving DecidableEq, Repr

/-- `classificar_janela` (app.py:22-35): classify the time of day against
the boundaries 09:00, 10:30, 12:00, 14:30 (here in seconds), first match
wins; a missing timestamp returns the NaN sentinel, embedded as `none`. -/
def classificar_janela : Option Timestamp → Option Janela
  | none => none
  | some dt =>
    if dt.tod < 9 * 3600 then some Janela.J1
    else if dt.tod < 10 * 3600 + 30 * 60 then some Janela.J2
    else if dt.tod < 12 * 3600 then some Janela.J3
    else if dt.tod < 14 * 3600 + 30 * 60 then some Janela.J4
    else some Janela.J5

/-- A Python number as stored in the `TPRODADO` column: an `int`, or a
`float` carrying an exact fraction `num / den` (pandas typically reads the
column as float, tagging `5` as `5.0`). -/
inductive PyNum
  | int (n : ℤ)
  | float (num : ℤ) (den : ℕ)
deriving DecidableEq, Repr

/-- Python numeric equality between a `TPRODADO` cell and an `int` dict key
(`5 == 5.0` holds in Python, and equal dict keys collapse). -/
def pyNumEqInt : PyNum → ℤ → Bool
  | .int n, k => n == k
  | .float num den, k => den != 0 && num == k * den

/-- One spreadsheet row.  `dthrsaida` and `situacao` cells can be missing
(`NaT`/`NaN`); driver and neighborhood are text. -/
structure Row where
  dthrsaida : Option Timestamp
  situacao : Option String
  motorista : String
  bairro : String
  tprodado : Option PyNum
deriving DecidableEq, Repr

/-- The loaded spreadsheet: a row list plus one presence flag per column
that the source interrogates with `'COL' in df.columns`. -/
structure DataFrame where
  hasDTHRSAIDA : Bool
  hasSITUACAO : Bool
  hasMOTORISTA : Bool
  hasBAIRRO : Bool
  hasTPRODADO : Bool
  rows : List Row
deriving DecidableEq, Repr

/-- The failures of the aggregators: the two `ValueError` families raised by
the source (missing required column, empty date filter) and the pandas
`KeyError` that `groupby` raises on a column absent from the frame. -/
inductive Err
  | missingColumn (col : String)
  | noData
  | keyError (col : String)
deriving DecidableEq, Repr

/-- `round(100 * devolvido / (entregue + devolvido), 2)` when the
denominator is positive, else `0.0` (app.py:108 and 264, and the per-group
`TD_PCT` lambdas at 312, 361, 411 where the denominator is the group
total).  Stored in hundredths of a percent: `5000` means `50.00 %`. -/
def td_pct (entregue devolvido : ℕ) : ℤ :=
  if 0 < entregue + devolvido then
    rheDiv (10000 * (devolvido : ℤ)) ((entregue : ℤ) + (devolvido : ℤ))
  else 0

/-- `round(100 * num / den, 1)` in tenths of a percent. -/
def pct1 (num den : ℕ) : ℤ := rheDiv (1000 * (num : ℤ)) (den : ℤ)

/-- `round(tot / dias, 1) if dias > 0 else 0.0` (app.py:323-326), in
tenths. -/
def avg1 (tot dias : ℕ) : ℤ :=
  if 0 < dias then rheDiv (10 * (tot : ℤ)) (dias : ℤ) else 0

/-- The fixed daily targets `meta = {'J1': 30, 'J2': 20, 'J3': 10,
'J4': 30, 'J5': 10}` (app.py:120, 267). -/
def meta : Janela → ℕ
  | .J1 => 30
  | .J2 => 20
  | .J3 => 10
  | .J4 => 30
  | .J5 => 10

/-- The date filter `df['DTHRSAIDA'].dt.date == data_ref` (app.py:93-94): a
row passes only if it has a non-null departure timestamp on the reference
day (`NaT` compares unequal to every date). -/
def dailyBase (df : DataFrame) (dataRef : ℕ) : List Row :=
  df.rows.filter (fun r =>
    match r.dthrsaida with
    | some t => t.day == dataRef
    | none => false)

/-- The `JANELA` value of one row (app.py:111). -/
def janelaOf (r : Row) : Option Janela := classificar_janela r.dthrsaida

/-- `base['JANELA'].value_counts()` read at window `j` (app.py:112-118). -/
def countJ (df : DataFrame) (dataRef : ℕ) (j : Janela) : ℕ :=
  ((dailyBase df dataRef).map janelaOf).count (some j)

/-- The window restriction `base[base['JANELA'] == j]` (app.py:133, 146). -/
def dailyBaseJ (df : DataFrame) (dataRef : ℕ) (j : Janela) : List Row :=
  (dailyBase df dataRef).filter (fun r => janelaOf r == some j)

/-- `base['SITUACAO'].str.contains(pat, case=False, na=False).sum()`
(app.py:101-103), and `0` when the column is absent (app.py:104-105). -/
def countSit (df : DataFrame) (dataRef : ℕ) (pat : String) : ℕ :=
  if df.hasSITUACAO then
    ((dailyBase df dataRef).filter (fun r => containsCI pat r.situacao)).length
  else 0

/-- One row of a window detail table: departure time slot (the `HH:MM`
string of `strftime`, embedded as minutes since midnight), driver,
neighborhood, and group size. -/
structure DistRow where
  HORA_SAIDA : ℕ
  MOTORISTA : String
  BAIRRO : String
  QTD : ℕ
deriving DecidableEq, Repr

/-- Minutes since midnight of the departure: the grouping key that
`dt.strftime('%H:%M')` produces (seconds are truncated). -/
def horaSaida (r : Row) : ℕ :=
  match r.dthrsaida with
  | some t => t.tod / 60
  | none => 0

/-- The detail-table grouping key (app.py:137, 150). -/
def distKey (r : Row) : ℕ × String × String := (horaSaida r, r.motorista, r.bairro)

/-- Ascending lexicographic order on (time slot, driver, neighborhood):
`sort_values(['HORA_SAIDA', 'MOTORISTA', 'BAIRRO'])` (app.py:140, 153);
comparing `HH:MM` strings is comparing minute counts. -/
def distLe (a b : ℕ × String × String) : Bool :=
  if a.1 < b.1 then true
  else if b.1 < a.1 then false
  else if strLt a.2.1 b.2.1 then true
  else if strLt b.2.1 a.2.1 then false
  else strLe a.2.2 b.2.2

/-- `groupby(['HORA_SAIDA','MOTORISTA','BAIRRO']).size()` then sort
(app.py:136-141, 149-154): one output row per distinct key, carrying the
key's multiplicity. -/
def distTable (l : List Row) : List DistRow :=
  (sortBy distLe ((l.map distKey).dedup)).map
    (fun k => ⟨k.1, k.2.1, k.2.2, (l.map distKey).count k⟩)

/-- One row of the driver/neighborhood ranking (app.py:160-167). -/
structure RankRow where
  MOTORISTA : String
  BAIRRO : String
  QTD : ℕ
  TOTAL_MOTORISTA : ℕ
deriving DecidableEq, Repr

/-- Number of `base` rows of driver `m`: the per-driver grand total merged
in as `TOTAL_MOTORISTA` (`rank.groupby('MOTORISTA')['QTD'].sum()`,
app.py:161-162). -/
def driverTotal (l : List Row) (m : String) : ℕ :=
  (l.filter (fun r => r.motorista == m)).length

/-- The ranking sort key: `sort_values(['TOTAL_MOTORISTA', 'QTD',
'MOTORISTA', 'BAIRRO'], ascending=[False, False, True, True])`
(app.py:163-166). -/
def rankLe (a b : RankRow) : Bool :=
  if b.TOTAL_MOTORISTA < a.TOTAL_MOTORISTA then true
  else if a.TOTAL_MOTORISTA < b.TOTAL_MOTORISTA then false
  else if b.QTD < a.QTD then true
  else if a.QTD < b.QTD then false
  else if strLt a.MOTORISTA b.MOTORISTA then true
  else if strLt b.MOTORISTA a.MOTORISTA then false
  else strLe a.BAIRRO b.BAIRRO

/-- `groupby(['MOTORISTA','BAIRRO']).size()`, merged with the per-driver
grand total and sorted (app.py:160-166).  The four-component sort key is
injective on the distinct (driver, neighborhood) group rows, so the order
is the same one pandas produces. -/
def rankTable (l : List Row) : List RankRow :=
  sortBy rankLe
    (((l.map (fun r => (r.motorista, r.bairro))).dedup).map
      (fun k =>
        ⟨k.1, k.2, (l.map (fun r => (r.motorista, r.bairro))).count k,
          driverTotal l k.1⟩))

/-- The dictionary returned by `processar_dados_diarios` (app.py:171-194).
Percentages are stored scaled: `TD_PCT` in hundredths of a percent, the
`_PCT` fields in tenths; the formatted `data_ref` string is kept as the
day index. -/
structure DailyReport where
  data_ref : ℕ
  TOTAL : ℕ
  ENTREGUE : ℕ
  DEVOLVIDO : ℕ
  EM_ENTREGA : ℕ
  TD_PCT : ℤ
  J1 : ℕ
  J2 : ℕ
  J3 : ℕ
  J4 : ℕ
  J5 : ℕ
  J1_PCT : ℤ
  J2_PCT : ℤ
  J3_PCT : ℤ
  J4_PCT : ℤ
  J5_PCT : ℤ
  TOTAL_PCT : ℤ
  GAP_J1 : ℤ
  GAP_J4 : ℤ
  J1_dist : List DistRow
  J4_dist : List DistRow
  rank : List RankRow
deriving DecidableEq, Repr

/-- The success-path value of `processar_dados_diarios` (app.py:99-194):
totals, window counts, percent-of-target values, gaps, the two window
detail tables (empty when the window has no rows, app.py:134, 147), and the
ranking (top 20 when both columns exist, else the empty frame,
app.py:159-169). -/
def mkDailyReport (df : DataFrame) (dataRef : ℕ) : DailyReport :=
  { data_ref := dataRef
    TOTAL := (dailyBase df dataRef).length
    ENTREGUE := countSit df dataRef "Entregue"
    DEVOLVIDO := countSit df dataRef "Devolvido"
    EM_ENTREGA := countSit df dataRef "Em Entrega"
    TD_PCT := td_pct (countSit df dataRef "Entregue") (countSit df dataRef "Devolvido")
    J1 := countJ df dataRef Janela.J1
    J2 := countJ df dataRef Janela.J2
    J3 := countJ df dataRef Janela.J3
    J4 := countJ df dataRef Janela.J4
    J5 := countJ df dataRef Janela.J5
    J1_PCT := if meta Janela.J1 ≠ 0 then pct1 (countJ df dataRef Janela.J1) (meta Janela.J1) else 0
    J2_PCT := if meta Janela.J2 ≠ 0 then pct1 (countJ df dataRef Janela.J2) (meta Janela.J2) else 0
    J3_PCT := if meta Janela.J3 ≠ 0 then pct1 (countJ df dataRef Janela.J3) (meta Janela.J3) else 0
    J4_PCT := if meta Janela.J4 ≠ 0 then pct1 (countJ df dataRef Janela.J4) (meta Janela.J4) else 0
    J5_PCT := if meta Janela.J5 ≠ 0 then pct1 (countJ df dataRef Janela.J5) (meta Janela.J5) else 0
    TOTAL_PCT := pct1 (dailyBase df dataRef).length 100
    GAP_J1 := (meta Janela.J1 : ℤ) - (countJ df dataRef Janela.J1 : ℤ)
    GAP_J4 := (meta Janela.J4 : ℤ) - (countJ df dataRef Janela.J4 : ℤ)
    J1_dist :=
      if dailyBaseJ df dataRef Janela.J1 = [] then []
      else distTable (dailyBaseJ df dataRef Janela.J1)
    J4_dist :=
      if dailyBaseJ df dataRef Janela.J4 = [] then []
      else distTable (dailyBaseJ df dataRef Janela.J4)
    rank :=
      if df.hasMOTORISTA && df.hasBAIRRO then (rankTable (dailyBase df dataRef)).take 20
      else [] }

/-- `processar_dados_diarios` (app.py:83-194).  Failure order follows the
source: missing `DTHRSAIDA` (app.py:90-91), empty date filter (app.py:96-97),
then the pandas `KeyError` that the detail-table `groupby` raises when a
window is non-empty while `MOTORISTA` or `BAIRRO` is absent (app.py:137,
150; the payload names the first missing column).  The ranking itself is
guarded by an explicit column check and never raises (app.py:159-169). -/
def processar_dados_diarios (df : DataFrame) (dataRef : ℕ) : Except Err DailyReport :=
  if df.hasDTHRSAIDA = false then .error (.missingColumn "DTHRSAIDA")
  else if dailyBase df dataRef = [] then .error Err.noData
  else if (dailyBaseJ df dataRef Janela.J1 ≠ [] ∨ dailyBaseJ df dataRef Janela.J4 ≠ []) ∧
      ¬(df.hasMOTORISTA = true ∧ df.hasBAIRRO = true) then
    .error (.keyError (if df.hasMOTORISTA then "BAIRRO" else "MOTORISTA"))
  else .ok (mkDailyReport df dataRef)

/-- `sorted(df['DTHRSAIDA'].dropna().dt.date.unique())` (app.py:219). -/
def datasCandidatas (df : DataFrame) : List ℕ :=
  sortBy Nat.ble (((df.rows.filterMap (fun r => r.dthrsaida)).map (fun t => t.day)).dedup)

/-- The in-range dates `[d for d in datas_candidatas if di <= d <= dfim]`
(app.py:220). -/
def datasPeriodo (df : DataFrame) (di dfim : ℕ) : List ℕ :=
  (datasCandidatas df).filter (fun d => decide (di ≤ d) && decide (d ≤ dfim))

/-- The consolidation loop (app.py:230-256): run the daily aggregator on
each date in order, propagate its failure, and drop (`continue`) the days
whose total is zero; the kept days carry their daily reports. -/
def periodLoop (df : DataFrame) : List ℕ → Except Err (List (ℕ × DailyReport))
  | [] => .ok []
  | d :: ds =>
    match processar_dados_diarios df d with
    | .error e => .error e
    | .ok rep =>
      match periodLoop df ds with
      | .error e => .error e
      | .ok rest => if rep.TOTAL = 0 then .ok rest else .ok ((d, rep) :: rest)

/-- `df[df['DTHRSAIDA'].notna() & df['DTHRSAIDA'].dt.date.isin(datas_periodo)]`
(app.py:283-284). -/
def basePeriodo (df : DataFrame) (datas : List ℕ) : List Row :=
  df.rows.filter (fun r =>
    match r.dthrsaida with
    | some t => datas.contains t.day
    | none => false)

/-- One row of the driver productivity table (app.py:292-340); the blank
`''` cells of the appended grand-total row are embedded as `none`. -/
structure ProdRow where
  MOTORISTA : String
  ENTREGAS : ℕ
  DEVOLUCOES : ℕ
  TOTAL : ℕ
  TD_PCT : Option ℤ
  MEDIA_DIA : Option ℤ
deriving DecidableEq, Repr

/-- Section 4 of the period report (app.py:295-340): restrict to rows whose
driver name contains `'MOTORISTA'`, count delivered/returned per driver
(drivers with neither never enter the outer-joined index), distinct worked
days, per-day average, sort by total descending, append the grand-total
row. -/
def prodTable (base : List Row) : List ProdRow :=
  let baseM := base.filter (fun r => containsS "MOTORISTA" r.motorista)
  let entN := (baseM.filter (fun r => containsCI "Entregue" r.situacao)).map (fun r => r.motorista)
  let devN := (baseM.filter (fun r => containsCI "Devolvido" r.situacao)).map (fun r => r.motorista)
  let drivers := sortBy strLe ((entN ++ devN).dedup)
  let rows := drivers.map (fun m =>
    let e := entN.count m
    let dv := devN.count m
    let dias := ((baseM.filter (fun r => r.motorista == m)).filterMap
      (fun r => Option.map (fun t => t.day) r.dthrsaida)).dedup.length
    { MOTORISTA := m
      ENTREGAS := e
      DEVOLUCOES := dv
      TOTAL := e + dv
      TD_PCT := some (td_pct e dv)
      MEDIA_DIA := some (avg1 (e + dv) dias) : ProdRow })
  let sorted := sortBy (fun a b => Nat.ble b.TOTAL a.TOTAL) rows
  sorted ++
    [{ MOTORISTA := "TOTAL GERAL"
       ENTREGAS := (sorted.map (fun r => r.ENTREGAS)).sum
       DEVOLUCOES := (sorted.map (fun r => r.DEVOLUCOES)).sum
       TOTAL := (sorted.map (fun r => r.TOTAL)).sum
       TD_PCT := none
       MEDIA_DIA := none }]

/-- One row of the neighborhood table (app.py:345-376). -/
structure BairroRow where
  BAIRRO : String
  ENTREGAS : ℕ
  DEVOLUCOES : ℕ
  TOTAL : ℕ
  TD_PCT : Option ℤ
deriving DecidableEq, Repr

/-- Section 5 of the period report (app.py:348-376): delivered/returned per
neighborhood over all period rows, sorted by total descending, grand-total
row appended. -/
def bairroTable (base : List Row) : List BairroRow :=
  let entN := (base.filter (fun r => containsCI "Entregue" r.situacao)).map (fun r => r.bairro)
  let devN := (base.filter (fun r => containsCI "Devolvido" r.situacao)).map (fun r => r.bairro)
  let keys := sortBy strLe ((entN ++ devN).dedup)
  let rows := keys.map (fun b =>
    let e := entN.count b
    let dv := devN.count b
    { BAIRRO := b
      ENTREGAS := e
      DEVOLUCOES := dv
      TOTAL := e + dv
      TD_PCT := some (td_pct e dv) : BairroRow })
  let sorted := sortBy (fun a b => Nat.ble b.TOTAL a.TOTAL) rows
  sorted ++
    [{ BAIRRO := "TOTAL GERAL"
       ENTREGAS := (sorted.map (fun r => r.ENTREGAS)).sum
       DEVOLUCOES := (sorted.map (fun r => r.DEVOLUCOES)).sum
       TOTAL := (sorted.map (fun r => r.TOTAL)).sum
       TD_PCT := none }]

/-- The code → label dictionary `mapa_veiculo` (app.py:382-393).  In the
Python dict literal the float keys `2.0, 5.0, 6.0, 7.0, 0.0` hash and
compare equal to the int keys and carry the same labels, so the dict
collapses to the five numeric keys `{0, 2, 5, 6, 7}`; lookup is by numeric
equality. -/
def mapaVeiculoLookup (v : PyNum) : Option String :=
  if pyNumEqInt v 2 then some "02 - Toco (Caçamba 5m³)"
  else if pyNumEqInt v 5 then some "05 - Utilitário (HR)"
  else if pyNumEqInt v 6 then some "06 - Caçamba 3m³"
  else if pyNumEqInt v 7 then some "07 - VUC (Carroceria 6m)"
  else if pyNumEqInt v 0 then some "00 - Munk"
  else none

/-- `base['TPRODADO'].map(mapa_veiculo)` followed by
`.fillna('Outro / Não mapeado')` (app.py:395-396), applied to one cell: an
unmapped or missing code falls back to the fixed label. -/
def veiculoTipo (v : Option PyNum) : String :=
  match v with
  | none => "Outro / Não mapeado"
  | some c => (mapaVeiculoLookup c).getD "Outro / Não mapeado"

/-- One row of the vehicle-type table (app.py:398-426). -/
structure VeicRow where
  VEICULO_TIPO : String
  ENTREGAS : ℕ
  DEVOLUCOES : ℕ
  TOTAL : ℕ
  TD_PCT : Option ℤ
deriving DecidableEq, Repr

/-- The vehicle-type table together with its column shape, so that the
empty frame `pd.DataFrame(columns=[...])` of the absent-column branch
(app.py:428) can be compared with the populated one. -/
structure VeicTable where
  cols : List String
  rows : List VeicRow
deriving DecidableEq, Repr

/-- The vehicle-table column list (app.py:417, 428). -/
def veicCols : List String := ["VEICULO_TIPO", "ENTREGAS", "DEVOLUCOES", "TOTAL", "TD_PCT"]

/-- Section 6 of the period report (app.py:381-428): label every row's
vehicle code, count delivered/returned per label, sort by total descending,
append the grand-total row; when `TPRODADO` is absent produce the empty
table with the same columns. -/
def veicTable (df : DataFrame) (base : List Row) : VeicTable :=
  if df.hasTPRODADO then
    let entL := (base.filter (fun r => containsCI "Entregue" r.situacao)).map
      (fun r => veiculoTipo r.tprodado)
    let devL := (base.filter (fun r => containsCI "Devolvido" r.situacao)).map
      (fun r => veiculoTipo r.tprodado)
    let keys := sortBy strLe ((entL ++ devL).dedup)
    let rows := keys.map (fun v =>
      let e := entL.count v
      let dv := devL.count v
      { VEICULO_TIPO := v
        ENTREGAS := e
        DEVOLUCOES := dv
        TOTAL := e + dv
        TD_PCT := some (td_pct e dv) : VeicRow })
    let sorted := sortBy (fun a b => Nat.ble b.TOTAL a.TOTAL) rows
    ⟨veicCols,
      sorted ++
        [{ VEICULO_TIPO := "TOTAL GERAL"
           ENTREGAS := (sorted.map (fun r => r.ENTREGAS)).sum
           DEVOLUCOES := (sorted.map (fun r => r.DEVOLUCOES)).sum
           TOTAL := (sorted.map (fun r => r.TOTAL)).sum
           TD_PCT := none }]⟩
  else ⟨veicCols, []⟩

/-- One row of the per-day table `janela_dia` (app.py:247-256). -/
structure LinhaDia where
  DATA : ℕ
  TOTAL : ℕ
  J1 : ℕ
  J2 : ℕ
  J3 : ℕ
  J4 : ℕ
  J5 : ℕ
  TD_PCT_DIA : ℤ
deriving DecidableEq, Repr

/-- Sum of one daily field over the kept days, embedding the running
accumulators of the day loop (app.py:236-245). -/
def sumOver (kept : List (ℕ × DailyReport)) (f : DailyReport → ℕ) : ℕ :=
  (kept.map (fun p => f p.2)).sum

/-- The dictionary returned by `processar_dados_periodo` (app.py:430-460),
fields scaled like `DailyReport`. -/
structure PeriodReport where
  data_ini : ℕ
  data_fim : ℕ
  N_DIAS : ℕ
  TOTAL : ℕ
  ENTREGUE : ℕ
  DEVOLVIDO : ℕ
  EM_ENTREGA : ℕ
  TD_PCT : ℤ
  J1 : ℕ
  J2 : ℕ
  J3 : ℕ
  J4 : ℕ
  J5 : ℕ
  META_J1 : ℕ
  META_J2 : ℕ
  META_J3 : ℕ
  META_J4 : ℕ
  META_J5 : ℕ
  META_TOTAL : ℕ
  J1_PCT_META : ℤ
  J2_PCT_META : ℤ
  J3_PCT_META : ℤ
  J4_PCT_META : ℤ
  J5_PCT_META : ℤ
  TOTAL_PCT_META : ℤ
  JANELAS_DIA : List LinhaDia
  PROD_MOTORISTA : List ProdRow
  BAIRRO_ANALISE : List BairroRow
  VEICULO_ANALISE : VeicTable
deriving DecidableEq, Repr

/-- The success-path value of `processar_dados_periodo` (app.py:226-460):
the accumulated totals and window sums over the kept days, the
day-count-scaled targets (app.py:267-273), the per-day table, and the three
period breakdown tables over `base_periodo`. -/
def mkPeriodReport (df : DataFrame) (di dfim : ℕ) (kept : List (ℕ × DailyReport)) :
    PeriodReport :=
  let n := kept.length
  let base := basePeriodo df (datasPeriodo df di dfim)
  { data_ini := di
    data_fim := dfim
    N_DIAS := n
    TOTAL := sumOver kept (fun r => r.TOTAL)
    ENTREGUE := sumOver kept (fun r => r.ENTREGUE)
    DEVOLVIDO := sumOver kept (fun r => r.DEVOLVIDO)
    EM_ENTREGA := sumOver kept (fun r => r.EM_ENTREGA)
    TD_PCT := td_pct (sumOver kept (fun r => r.ENTREGUE)) (sumOver kept (fun r => r.DEVOLVIDO))
    J1 := sumOver kept (fun r => r.J1)
    J2 := sumOver kept (fun r => r.J2)
    J3 := sumOver kept (fun r => r.J3)
    J4 := sumOver kept (fun r => r.J4)
    J5 := sumOver kept (fun r => r.J5)
    META_J1 := meta Janela.J1 * n
    META_J2 := meta Janela.J2 * n
    META_J3 := meta Janela.J3 * n
    META_J4 := meta Janela.J4 * n
    META_J5 := meta Janela.J5 * n
    META_TOTAL := 100 * n
    J1_PCT_META :=
      if meta Janela.J1 * n ≠ 0 then pct1 (sumOver kept (fun r => r.J1)) (meta Janela.J1 * n) else 0
    J2_PCT_META :=
      if meta Janela.J2 * n ≠ 0 then pct1 (sumOver kept (fun r => r.J2)) (meta Janela.J2 * n) else 0
    J3_PCT_META :=
      if meta Janela.J3 * n ≠ 0 then pct1 (sumOver kept (fun r => r.J3)) (meta Janela.J3 * n) else 0
    J4_PCT_META :=
      if meta Janela.J4 * n ≠ 0 then pct1 (sumOver kept (fun r => r.J4)) (meta Janela.J4 * n) else 0
    J5_PCT_META :=
      if meta Janela.J5 * n ≠ 0 then pct1 (sumOver kept (fun r => r.J5)) (meta Janela.J5 * n) else 0
    TOTAL_PCT_META :=
      if 100 * n ≠ 0 then pct1 (sumOver kept (fun r => r.TOTAL)) (100 * n) else 0
    JANELAS_DIA := kept.map (fun p =>
      ⟨p.1, p.2.TOTAL, p.2.J1, p.2.J2, p.2.J3, p.2.J4, p.2.J5, p.2.TD_PCT⟩)
    PROD_MOTORISTA := prodTable base
    BAIRRO_ANALISE := bairroTable base
    VEICULO_ANALISE := veicTable df base }

/-- `processar_dados_periodo` (app.py:200-460).  Failure order follows the
source: missing `DTHRSAIDA` (app.py:216-217), no date in range
(app.py:222-223), a failing day run inside the loop (app.py:231), no
surviving day row (app.py:258-259), then the `SITUACAO` / `MOTORISTA` /
`BAIRRO` column checks (app.py:286-287, 292-293, 345-346). -/
def processar_dados_periodo (df : DataFrame) (di dfim : ℕ) : Except Err PeriodReport :=
  if df.hasDTHRSAIDA = false then .error (.missingColumn "DTHRSAIDA")
  else if datasPeriodo df di dfim = [] then .error Err.noData
  else
    match periodLoop df (datasPeriodo df di dfim) with
    | .error e => .error e
    | .ok kept =>
      if kept = [] then .error Err.noData
      else if df.hasSITUACAO = false then .error (.missingColumn "SITUACAO")
      else if df.hasMOTORISTA = false then .error (.missingColumn "MOTORISTA")
      else if df.hasBAIRRO = false then .error (.missingColumn "BAIRRO")
      else .ok (mkPeriodReport df di dfim kept)

/-- A concrete row builder for the test inputs below. -/
def mkRow (day tod : ℕ) (sit mot bai : String) : Row :=
  ⟨some ⟨day, tod⟩, some sit, mot, bai, none⟩

/-- A delivered row in window J2 (09:00) of day 0. -/
def rowJ2 : Row := ⟨some ⟨0, 9 * 3600⟩, some "Entregue", "MOTORISTA A", "Centro", some (PyNum.float 5 1)⟩

/-- A returned row in window J1 (08:00) of day 0. -/
def rowJ1 : Row := ⟨some ⟨0, 8 * 3600⟩, some "Devolvido", "MOTORISTA B", "Norte", none⟩

/-- A delivered row in window J4 (13:00) of day 1. -/
def rowD1 : Row := ⟨some ⟨1, 13 * 3600⟩, some "Entregue", "MOTORISTA A", "Sul", some (PyNum.int 99)⟩

/-- A fully-featured spreadsheet: all columns present, rows on days 0 and 1. -/
def dfFull : DataFrame := ⟨true, true, true, true, true, [rowJ2, rowJ1, rowD1]⟩

/-- Same data but without the `TPRODADO` column. -/
def dfNoVeic : DataFrame := ⟨true, true, true, true, false, [rowJ2, rowJ1, rowD1]⟩

/-- `MOTORISTA` column absent, all rows outside windows J1 and J4. -/
def dfNoMot : DataFrame := ⟨true, true, false, true, true, [rowJ2]⟩

/-- `MOTORISTA` column absent, with a row in window J1. -/
def dfNoMotJ1 : DataFrame := ⟨true, true, false, true, true, [rowJ1]⟩

/-- Spreadsheet without the `DTHRSAIDA` column. -/
def dfNoTs : DataFrame := ⟨false, true, true, true, true, [rowJ2]⟩

/-- Spreadsheet with all columns but no row at all. -/
def dfEmpty : DataFrame := ⟨true, true, true, true, true, []⟩

/-- Two drivers tied on the grand total 4: driver `A` delivers 3 to `x` and
1 to `y`, driver `B` delivers 2 to `u` and 2 to `v`; all rows in window J5
of day 0. -/
def dfTie : DataFrame :=
  ⟨true, true, true, true, true,
    [mkRow 0 54000 "Entregue" "A" "x", mkRow 0 54000 "Entregue" "A" "x",
     mkRow 0 54000 "Entregue" "A" "x", mkRow 0 54000 "Entregue" "A" "y",
     mkRow 0 54000 "Entregue" "B" "u", mkRow 0 54000 "Entregue" "B" "u",
     mkRow 0 54000 "Entregue" "B" "v", mkRow 0 54000 "Entregue" "B" "v"]⟩

/-- Two drivers with distinct grand totals: `A` delivers to `x` and `y`
(total 2), `B` delivers to `u` (total 1); all rows in window J5 of day 0. -/
def dfDist : DataFrame :=
  ⟨true, true, true, true, true,
    [mkRow 0 54000 "Entregue" "A" "x", mkRow 0 54000 "Entregue" "A" "y",
     mkRow 0 54000 "Entregue" "B" "u"]⟩

/-- The ranking computed for `dfTie` on day 0 (empty if the day run fails,
which it does not). -/
def rankTie : List RankRow :=
  match processar_dados_diarios dfTie 0 with
  | .ok rep => rep.rank
  | .error _ => []

/-- Contiguity of the driver blocks of a ranking: no row of another driver
sits between two rows of the same driver. -/
def DriverContiguous (l : List RankRow) : Prop :=
  ∀ i k j : Fin l.length, i < k → k < j →
    (l.get i).MOTORISTA = (l.get j).MOTORISTA →
    (l.get k).MOTORISTA = (l.get i).MOTORISTA

/-- The within-one-driver display order of the ranking: count descending,
then neighborhood ascending. -/
def withinRel (a b : RankRow) : Prop :=
  b.QTD < a.QTD ∨ (a.QTD = b.QTD ∧ strLe a.BAIRRO b.BAIRRO = true)

end Oliveira

namespace Oliveira

theorem mem_insertSorted (le : α → α → Bool) (a x : α) (l : List α) :
    x ∈ insertSorted le a l ↔ x = a ∨ x ∈ l := by
  induction l with
  | nil => simp [insertSorted]
  | cons b bs ih =>
    unfold insertSorted
    by_cases h : le a b = true
    · rw [if_pos h]
      simp only [List.mem_cons]
    · rw [if_neg h]
      simp only [List.mem_cons, ih]
      tauto

theorem mem_sortBy (le : α → α → Bool) (x : α) (l : List α) :
    x ∈ sortBy le l ↔ x ∈ l := by
  induction l with
  | nil => simp [sortBy]
  | cons a as ih => simp [sortBy, mem_insertSorted, ih]

theorem length_insertSorted (le : α → α → Bool) (a : α) (l : List α) :
    (insertSorted le a l).length = l.length + 1 := by
  induction l with
  | nil => simp [insertSorted]
  | cons b bs ih =>
    by_cases h : le a b = true
    · simp [insertSorted, h]
    · simp [insertSorted, h, ih]

theorem length_sortBy (le : α → α → Bool) (l : List α) :
    (sortBy le l).length = l.length := by
  induction l with
  | nil => rfl
  | cons a as ih => simp [sortBy, length_insertSorted, ih]

theorem perm_insertSorted (le : α → α → Bool) (a : α) (l : List α) :
    List.Perm (insertSorted le a l) (a :: l) := by
  induction l with
  | nil => simp [insertSorted]
  | cons b bs ih =>
    by_cases h : le a b = true
    · simp [insertSorted, h]
    · simp only [insertSorted, h, if_false]
      exact List.Perm.trans (ih.cons b) (List.Perm.swap a b bs)

theorem perm_sortBy (le : α → α → Bool) (l : List α) :
    List.Perm (sortBy le l) l := by
  induction l with
  | nil => simp [sortBy]
  | cons a as ih =>
    exact (perm_insertSorted le a (sortBy le as)).trans (ih.cons a)

theorem pairwise_insertSorted (le : α → α → Bool)
    (htot : ∀ a b, le a b = true ∨ le b a = true)
    (htrans : ∀ a b c, le a b = true → le b c = true → le a c = true)
    (a : α) (l : List α) (h : List.Pairwise (fun x y => le x y = true) l) :
    List.Pairwise (fun x y => le x y = true) (insertSorted le a l) := by
  induction l with
  | nil => simp [insertSorted]
  | cons b bs ih =>
    obtain ⟨hb, hbs⟩ := List.pairwise_cons.mp h
    by_cases hab : le a b = true
    · simp only [insertSorted, hab, if_true]
      refine List.Pairwise.cons ?_ (List.Pairwise.cons hb hbs)
      intro x hx
      rcases List.mem_cons.mp hx with hx | hx
      · subst hx; exact hab
      · exact htrans a b x hab (hb x hx)
    · simp only [insertSorted, hab, if_false]
      refine List.Pairwise.cons ?_ (ih hbs)
      intro x hx
      rcases (mem_insertSorted le a x bs).mp hx with hx | hx
      · rcases htot a b with h1 | h1
        · exact absurd h1 hab
        · rw [hx]; exact h1
      · exact hb x hx

theorem pairwise_sortBy (le : α → α → Bool)
    (htot : ∀ a b, le a b = true ∨ le b a = true)
    (htrans : ∀ a b c, le a b = true → le b c = true → le a c = true)
    (l : List α) :
    List.Pairwise (fun x y => le x y = true) (sortBy le l) := by
  induction l with
  | nil => simp [sortBy]
  | cons a as ih => exact pairwise_insertSorted le htot htrans a (sortBy le as) ih

theorem strLtB_irrefl (l : List Char) : strLtB l l = false := by
  induction l with
  | nil => rfl
  | cons a as ih => simp [strLtB, ih]

theorem strLtB_trans {a b c : List Char} (h1 : strLtB a b = true)
    (h2 : strLtB b c = true) : strLtB a c = true := by
  induction a generalizing b c with
  | nil =>
    cases b with
    | nil => simp [strLtB] at h1
    | cons y ys =>
      cases c with
      | nil => simp [strLtB] at h2
      | cons z zs => rfl
  | cons x xs ih =>
    cases b with
    | nil => simp [strLtB] at h1
    | cons y ys =>
      cases c with
      | nil => simp [strLtB] at h2
      | cons z zs =>
        unfold strLtB at h1 h2 ⊢
        split_ifs at h1 h2 ⊢ with hxy hyx hyz hzy hxz hzx <;>
          first
            | rfl
            | omega
            | (exact ih (b := ys) (c := zs) h1 h2)

theorem strLtB_connex {a b : List Char} (h1 : strLtB a b = false)
    (h2 : strLtB b a = false) : a = b := by
  induction a generalizing b with
  | nil =>
    cases b with
    | nil => rfl
    | cons y ys => simp [strLtB] at h1
  | cons x xs ih =>
    cases b with
    | nil => simp [strLtB] at h2
    | cons y ys =>
      unfold strLtB at h1 h2
      by_cases hxy : x.toNat < y.toNat
      · rw [if_pos hxy] at h1
        exact absurd h1 (by simp)
      · by_cases hyx : y.toNat < x.toNat
        · rw [if_pos hyx] at h2
          exact absurd h2 (by simp)
        · rw [if_neg hxy, if_neg hyx] at h1
          rw [if_neg hyx, if_neg hxy] at h2
          unfold Char.toNat at hxy hyx
          have hx : x = y := Char.ext (UInt32.ext (by omega))
          rw [hx, ih h1 h2]

theorem strLt_irrefl (s : String) : strLt s s = false := strLtB_irrefl s.data

theorem strLt_trans {a b c : String} (h1 : strLt a b = true)
    (h2 : strLt b c = true) : strLt a c = true := strLtB_trans h1 h2

theorem strLt_connex {a b : String} (h1 : strLt a b = false)
    (h2 : strLt b a = false) : a = b := String.ext (strLtB_connex h1 h2)

theorem strLe_total (a b : String) : strLe a b = true ∨ strLe b a = true := by
  rcases h1 : strLt a b with hv | hv
  · rcases h2 : strLt b a with hw | hw
    · have hab : a = b := strLt_connex h1 h2
      left
      rw [hab]
      simp [strLe]
    · right
      simp [strLe, h2]
  · left
    simp [strLe, h1]

theorem strLe_trans {a b c : String} (h1 : strLe a b = true)
    (h2 : strLe b c = true) : strLe a c = true := by
  simp only [strLe, Bool.or_eq_true, beq_iff_eq] at h1 h2 ⊢
  rcases h1 with h1 | h1
  · rcases h2 with h2 | h2
    · exact Or.inl (strLt_trans h1 h2)
    · rw [← h2]; exact Or.inl h1
  · rw [h1]; exact h2

theorem rheDiv_nonneg {a b : ℤ} (ha : 0 ≤ a) (hb : 0 < b) : 0 ≤ rheDiv a b := by
  have hf : 0 ≤ a.fdiv b := Int.fdiv_nonneg ha (le_of_lt hb)
  unfold rheDiv
  dsimp only
  split_ifs <;> omega

theorem rheDiv_le {a b : ℤ} (n : ℤ) (hb : 0 < b) (ha : 0 ≤ a) (h : a ≤ n * b) :
    rheDiv a b ≤ n := by
  have hfm : b * a.fdiv b + a.fmod b = a := Int.fdiv_add_fmod a b
  have hr0 : 0 ≤ a.fmod b := Int.fmod_nonneg ha (le_of_lt hb)
  have hrb : a.fmod b < b := Int.fmod_lt_of_pos a hb
  have hrdef : a - b * a.fdiv b = a.fmod b := by omega
  have hfle : a.fdiv b ≤ n := by
    by_contra hc
    push_neg at hc
    have h1 : n + 1 ≤ a.fdiv b := by omega
    have h2 : b * (n + 1) ≤ b * a.fdiv b := by
      exact mul_le_mul_of_nonneg_left h1 (le_of_lt hb)
    nlinarith
  unfold rheDiv
  dsimp only
  rw [hrdef]
  split_ifs with h1 h2 h3
  · exact hfle
  · -- the rounded value is `fdiv + 1`; the remainder is positive, so `fdiv < n`
    by_contra hc
    push_neg at hc
    have he : a.fdiv b = n := by omega
    have : b * n + a.fmod b = a := by rw [← he]; exact hfm
    nlinarith
  · exact hfle
  · by_contra hc
    push_neg at hc
    have he : a.fdiv b = n := by omega
    have : b * n + a.fmod b = a := by rw [← he]; exact hfm
    nlinarith

theorem classificar_some (t : Timestamp) : classificar_janela (some t) ≠ none := by
  simp only [classificar_janela]
  split_ifs <;> simp

theorem daily_ok {df : DataFrame} {d : ℕ} {rep : DailyReport}
    (h : processar_dados_diarios df d = Except.ok rep) :
    rep = mkDailyReport df d ∧ df.hasDTHRSAIDA = true ∧ dailyBase df d ≠ [] ∧
      ¬((dailyBaseJ df d Janela.J1 ≠ [] ∨ dailyBaseJ df d Janela.J4 ≠ []) ∧
        ¬(df.hasMOTORISTA = true ∧ df.hasBAIRRO = true)) := by
  unfold processar_dados_diarios at h
  split_ifs at h with h1 h2 h3
  all_goals
    first
      | exact Except.noConfusion h
      | refine ⟨(Except.ok.inj h).symm, ?_, h2, h3⟩
  cases hv : df.hasDTHRSAIDA with
  | false => exact absurd hv h1
  | true => rfl

theorem daily_keyError {df : DataFrame} {d : ℕ}
    (hD : df.hasDTHRSAIDA = true) (hne : dailyBase df d ≠ [])
    (hJ : dailyBaseJ df d Janela.J1 ≠ [] ∨ dailyBaseJ df d Janela.J4 ≠ [])
    (hMB : ¬(df.hasMOTORISTA = true ∧ df.hasBAIRRO = true)) :
    processar_dados_diarios df d =
      Except.error (Err.keyError (if df.hasMOTORISTA then "BAIRRO" else "MOTORISTA")) := by
  unfold processar_dados_diarios
  rw [if_neg (by rw [hD]; simp), if_neg hne, if_pos ⟨hJ, hMB⟩]

theorem daily_success {df : DataFrame} {d : ℕ}
    (hD : df.hasDTHRSAIDA = true) (hne : dailyBase df d ≠ [])
    (hMB : df.hasMOTORISTA = true ∧ df.hasBAIRRO = true) :
    processar_dados_diarios df d = Except.ok (mkDailyReport df d) := by
  unfold processar_dados_diarios
  rw [if_neg (by rw [hD]; simp), if_neg hne, if_neg (by tauto)]

theorem daily_missingColumn_iff (df : DataFrame) (d : ℕ) :
    (∃ c, processar_dados_diarios df d = Except.error (Err.missingColumn c)) ↔
      df.hasDTHRSAIDA = false := by
  constructor
  · rintro ⟨c, hc⟩
    unfold processar_dados_diarios at hc
    split_ifs at hc with h1 h2 h3
    · exact h1
    · exact absurd (Except.error.inj hc) (by simp)
    · exact absurd (Except.error.inj hc) (by simp)
    · exact absurd hc (by simp)
  · intro h1
    refine ⟨"DTHRSAIDA", ?_⟩
    unfold processar_dados_diarios
    rw [if_pos h1]

theorem daily_noData_iff (df : DataFrame) (d : ℕ) (hD : df.hasDTHRSAIDA = true) :
    processar_dados_diarios df d = Except.error Err.noData ↔ dailyBase df d = [] := by
  constructor
  · intro hc
    unfold processar_dados_diarios at hc
    split_ifs at hc with h1 h2 h3
    · exact absurd (Except.error.inj hc) (by simp)
    · exact h2
    · exact absurd (Except.error.inj hc) (by simp)
    · exact absurd hc (by simp)
  · intro h2
    unfold processar_dados_diarios
    rw [if_neg (by rw [hD]; simp), if_pos h2]

theorem count_janelas (l : List (Option Janela)) (h : ∀ x ∈ l, x ≠ none) :
    l.count (some Janela.J1) + l.count (some Janela.J2) + l.count (some Janela.J3) +
      l.count (some Janela.J4) + l.count (some Janela.J5) = l.length := by
  induction l with
  | nil => simp
  | cons a as ih =>
    have ha := h a (List.mem_cons_self a as)
    have ihh := ih (fun x hx => h x (List.mem_cons_of_mem a hx))
    cases a with
    | none => exact absurd rfl ha
    | some j =>
      cases j <;> simp [List.count_cons] <;> omega

theorem mem_dailyBase {df : DataFrame} {d : ℕ} {r : Row} (h : r ∈ dailyBase df d) :
    ∃ t, r.dthrsaida = some t ∧ t.day = d := by
  unfold dailyBase at h
  have hp := (List.mem_filter.mp h).2
  cases hv : r.dthrsaida with
  | none => rw [hv] at hp; simp at hp
  | some t =>
    rw [hv] at hp
    exact ⟨t, rfl, by simpa using hp⟩

theorem dailyBase_eq_nil_iff (df : DataFrame) (d : ℕ) :
    dailyBase df d = [] ↔ ∀ r ∈ df.rows, ∀ t, r.dthrsaida = some t → t.day ≠ d := by
  unfold dailyBase
  rw [List.filter_eq_nil_iff]
  constructor
  · intro h r hr t ht hd
    have hp := h r hr
    rw [ht] at hp
    simp [hd] at hp
  · intro h r hr
    cases hv : r.dthrsaida with
    | none => simp
    | some t =>
      have := h r hr t hv
      simp [this]

/-- C1: for every non-null timestamp the window classifier returns exactly
one of the five windows, determined only by the time of day against the
four boundaries 09:00, 10:30, 12:00, 14:30 (in seconds) in first-match-wins
order; a timestamp exactly at a boundary falls in the later window, and a
missing timestamp yields the null sentinel instead of an error. -/
theorem c1_window_classifier :
    classificar_janela none = none ∧
    ∀ t : Timestamp,
      classificar_janela (some t) ≠ none ∧
      (classificar_janela (some t) = some Janela.J1 ↔ t.tod < 9 * 3600) ∧
      (classificar_janela (some t) = some Janela.J2 ↔
        9 * 3600 ≤ t.tod ∧ t.tod < 10 * 3600 + 30 * 60) ∧
      (classificar_janela (some t) = some Janela.J3 ↔
        10 * 3600 + 30 * 60 ≤ t.tod ∧ t.tod < 12 * 3600) ∧
      (classificar_janela (some t) = some Janela.J4 ↔
        12 * 3600 ≤ t.tod ∧ t.tod < 14 * 3600 + 30 * 60) ∧
      (classificar_janela (some t) = some Janela.J5 ↔ 14 * 3600 + 30 * 60 ≤ t.tod) := by
  refine ⟨rfl, fun t => ⟨classificar_some t, ?_, ?_, ?_, ?_, ?_⟩⟩ <;>
    simp only [classificar_janela] <;>
    split_ifs with h1 h2 h3 h4 <;>
    simp <;>
    omega

/-- Witness for C1 at the boundary timestamps 08:59, 09:00, 10:30, 12:00,
14:30 and the missing timestamp. -/
theorem c1_witness :
    classificar_janela (some ⟨0, 8 * 3600 + 59 * 60⟩) = some Janela.J1 ∧
    classificar_janela (some ⟨0, 9 * 3600⟩) = some Janela.J2 ∧
    classificar_janela (some ⟨0, 10 * 3600 + 30 * 60⟩) = some Janela.J3 ∧
    classificar_janela (some ⟨0, 12 * 3600⟩) = some Janela.J4 ∧
    classificar_janela (some ⟨0, 14 * 3600 + 30 * 60⟩) = some Janela.J5 ∧
    classificar_janela none = none :=
  ⟨(c1_window_classifier.2 ⟨0, 8 * 3600 + 59 * 60⟩).2.1.mpr (by decide),
   (c1_window_classifier.2 ⟨0, 9 * 3600⟩).2.2.1.mpr (by decide),
   (c1_window_classifier.2 ⟨0, 10 * 3600 + 30 * 60⟩).2.2.2.1.mpr (by decide),
   (c1_window_classifier.2 ⟨0, 12 * 3600⟩).2.2.2.2.1.mpr (by decide),
   (c1_window_classifier.2 ⟨0, 14 * 3600 + 30 * 60⟩).2.2.2.2.2.mpr (by decide),
   c1_window_classifier.1⟩

/-- C2: on every successful daily aggregation the five window counts
partition the date-filtered records — their sum never exceeds the total and
equals it when no filtered record has a missing timestamp (which the date
filter in fact guarantees, so equality always holds). -/
theorem c2_window_counts_partition (df : DataFrame) (d : ℕ) (rep : DailyReport)
    (h : processar_dados_diarios df d = Except.ok rep) :
    rep.J1 + rep.J2 + rep.J3 + rep.J4 + rep.J5 ≤ rep.TOTAL ∧
      ((∀ r ∈ dailyBase df d, r.dthrsaida ≠ none) →
        rep.J1 + rep.J2 + rep.J3 + rep.J4 + rep.J5 = rep.TOTAL) := by
  obtain ⟨hrep, -, -, -⟩ := daily_ok h
  subst hrep
  have hall : ∀ x ∈ (dailyBase df d).map janelaOf, x ≠ none := by
    intro x hx
    obtain ⟨r, hr, hxe⟩ := List.mem_map.mp hx
    obtain ⟨t, ht, -⟩ := mem_dailyBase hr
    rw [← hxe]
    unfold janelaOf
    rw [ht]
    exact classificar_some t
  have hsum := count_janelas ((dailyBase df d).map janelaOf) hall
  have hlen : ((dailyBase df d).map janelaOf).length = (dailyBase df d).length :=
    List.length_map _ _
  constructor
  · simp only [mkDailyReport]
    unfold countJ
    omega
  · intro _
    simp only [mkDailyReport]
    unfold countJ
    omega

/-- Witness for C2 on a concrete three-row spreadsheet: the counts sum to
the total exactly. -/
theorem c2_witness :
    (mkDailyReport dfFull 0).J1 + (mkDailyReport dfFull 0).J2 + (mkDailyReport dfFull 0).J3 +
        (mkDailyReport dfFull 0).J4 + (mkDailyReport dfFull 0).J5 = (mkDailyReport dfFull 0).TOTAL :=
  (c2_window_counts_partition dfFull 0 (mkDailyReport dfFull 0) rfl).2 (by decide)

/-- C5: daily aggregation fails with the missing-column error exactly when
the schema lacks `DTHRSAIDA` (and then with that very column name), and —
given the column — fails with the no-data error exactly when no record has
a departure timestamp on the reference date.  The `Except` result type
makes the absence of partial reports structural: an error excludes any
returned report. -/
theorem c5_daily_failure_conditions (df : DataFrame) (d : ℕ) :
    ((∃ c, processar_dados_diarios df d = Except.error (Err.missingColumn c)) ↔
      df.hasDTHRSAIDA = false) ∧
    (df.hasDTHRSAIDA = false →
      processar_dados_diarios df d = Except.error (Err.missingColumn "DTHRSAIDA")) ∧
    (df.hasDTHRSAIDA = true →
      (processar_dados_diarios df d = Except.error Err.noData ↔
        ∀ r ∈ df.rows, ∀ t, r.dthrsaida = some t → t.day ≠ d)) := by
  refine ⟨daily_missingColumn_iff df d, ?_, ?_⟩
  · intro h1
    unfold processar_dados_diarios
    rw [if_pos h1]
  · intro hD
    rw [daily_noData_iff df d hD]
    exact dailyBase_eq_nil_iff df d

/-- Witness for C5: the spreadsheet without `DTHRSAIDA` raises the
missing-column error, the one with no rows raises the no-data error. -/
theorem c5_witness :
    processar_dados_diarios dfNoTs 0 = Except.error (Err.missingColumn "DTHRSAIDA") ∧
    processar_dados_diarios dfEmpty 0 = Except.error Err.noData :=
  ⟨(c5_daily_failure_conditions dfNoTs 0).2.1 rfl,
   ((c5_daily_failure_conditions dfEmpty 0).2.2 rfl).mpr (by decide)⟩

/-- C6: the return rate equals `round(100 * r / (d + r), 2)` — embedded in
hundredths of a percent as the round-half-to-even division
`rheDiv (10000 r) (d + r)` — when `d + r > 0`, equals `0.0` when
`d + r = 0`, and always lies in `[0, 100] %`, i.e. in `[0, 10000]`
hundredths. -/
theorem c6_return_rate (d r : ℕ) :
    (0 < d + r → td_pct d r = rheDiv (10000 * (r : ℤ)) ((d : ℤ) + (r : ℤ))) ∧
    (d + r = 0 → td_pct d r = 0) ∧
    0 ≤ td_pct d r ∧ td_pct d r ≤ 10000 := by
  refine ⟨?_, ?_, ?_, ?_⟩
  · intro h
    unfold td_pct
    rw [if_pos h]
  · intro h
    unfold td_pct
    rw [if_neg (by omega)]
  · unfold td_pct
    split_ifs with h
    · exact rheDiv_nonneg (by positivity) (by exact_mod_cast h)
    · exact le_refl 0
  · unfold td_pct
    split_ifs with h
    · refine rheDiv_le 10000 (by exact_mod_cast h) (by positivity) ?_
      nlinarith [Nat.cast_nonneg (α := ℤ) d, Nat.cast_nonneg (α := ℤ) r]
    · omega

/-- Witness for C6 at `d = 1, r = 1` (rate `50.00 %`) and `d = r = 0`. -/
theorem c6_witness :
    td_pct 1 1 = rheDiv (10000 * (1 : ℤ)) ((1 : ℤ) + (1 : ℤ)) ∧
    td_pct 0 0 = 0 ∧ 0 ≤ td_pct 1 1 ∧ td_pct 1 1 ≤ 10000 :=
  ⟨(c6_return_rate 1 1).1 (by decide), (c6_return_rate 0 0).2.1 rfl,
   (c6_return_rate 1 1).2.2.1, (c6_return_rate 1 1).2.2.2⟩

theorem bool_not_true {b : Bool} (h : ¬b = true) : b = false := by
  cases b
  · rfl
  · exact absurd rfl h

theorem bool_not_false {b : Bool} (h : ¬b = false) : b = true := by
  cases b
  · exact absurd rfl h
  · rfl

theorem rankLe_iff (a b : RankRow) : rankLe a b = true ↔
    (b.TOTAL_MOTORISTA < a.TOTAL_MOTORISTA ∨
      (a.TOTAL_MOTORISTA = b.TOTAL_MOTORISTA ∧ (b.QTD < a.QTD ∨
        (a.QTD = b.QTD ∧ (strLt a.MOTORISTA b.MOTORISTA = true ∨
          (strLt a.MOTORISTA b.MOTORISTA = false ∧ strLt b.MOTORISTA a.MOTORISTA = false ∧
            strLe a.BAIRRO b.BAIRRO = true)))))) := by
  unfold rankLe
  split_ifs with h1 h2 h3 h4 h5 h6
  · simp [h1]
  · simp only [false_iff]
    intro hc
    rcases hc with hc | ⟨hc, -⟩ <;> omega
  · have hT : a.TOTAL_MOTORISTA = b.TOTAL_MOTORISTA := by omega
    simp [h1, hT, h3]
  · have hT : a.TOTAL_MOTORISTA = b.TOTAL_MOTORISTA := by omega
    simp only [false_iff]
    intro hc
    rcases hc with hc | ⟨-, hc | ⟨hc, -⟩⟩ <;> omega
  · have hT : a.TOTAL_MOTORISTA = b.TOTAL_MOTORISTA := by omega
    have hQ : a.QTD = b.QTD := by omega
    simp [h1, h3, hT, hQ, h5]
  · have hT : a.TOTAL_MOTORISTA = b.TOTAL_MOTORISTA := by omega
    have hQ : a.QTD = b.QTD := by omega
    have h5f := bool_not_true h5
    simp only [false_iff]
    intro hc
    rcases hc with hc | ⟨-, hc | ⟨-, hM | ⟨-, hMg, -⟩⟩⟩
    · omega
    · omega
    · rw [h5f] at hM
      exact Bool.noConfusion hM
    · rw [h6] at hMg
      exact Bool.noConfusion hMg
  · have hT : a.TOTAL_MOTORISTA = b.TOTAL_MOTORISTA := by omega
    have hQ : a.QTD = b.QTD := by omega
    have h5f := bool_not_true h5
    have h6f := bool_not_true h6
    constructor
    · intro hB
      exact Or.inr ⟨hT, Or.inr ⟨hQ, Or.inr ⟨h5f, h6f, hB⟩⟩⟩
    · intro hc
      rcases hc with hc | ⟨-, hc | ⟨-, hM | ⟨-, -, hB⟩⟩⟩
      · omega
      · omega
      · rw [h5f] at hM
        exact Bool.noConfusion hM
      · exact hB

theorem rankLe_total (a b : RankRow) : rankLe a b = true ∨ rankLe b a = true := by
  rw [rankLe_iff, rankLe_iff]
  by_cases hT : a.TOTAL_MOTORISTA = b.TOTAL_MOTORISTA
  · by_cases hQ : a.QTD = b.QTD
    · rcases hv : strLt a.MOTORISTA b.MOTORISTA with hf | ht
      · rcases hw : strLt b.MOTORISTA a.MOTORISTA with hf2 | ht2
        · rcases strLe_total a.BAIRRO b.BAIRRO with hB | hB
          · exact Or.inl (Or.inr ⟨hT, Or.inr ⟨hQ, Or.inr ⟨rfl, rfl, hB⟩⟩⟩)
          · exact Or.inr (Or.inr ⟨hT.symm, Or.inr ⟨hQ.symm, Or.inr ⟨rfl, rfl, hB⟩⟩⟩)
        · exact Or.inr (Or.inr ⟨hT.symm, Or.inr ⟨hQ.symm, Or.inl rfl⟩⟩)
      · exact Or.inl (Or.inr ⟨hT, Or.inr ⟨hQ, Or.inl rfl⟩⟩)
    · rcases Nat.lt_or_ge a.QTD b.QTD with hlt | hge
      · exact Or.inr (Or.inr ⟨hT.symm, Or.inl hlt⟩)
      · exact Or.inl (Or.inr ⟨hT, Or.inl (by omega)⟩)
  · rcases Nat.lt_or_ge a.TOTAL_MOTORISTA b.TOTAL_MOTORISTA with hlt | hge
    · exact Or.inr (Or.inl hlt)
    · exact Or.inl (Or.inl (by omega))

theorem rankLe_trans {a b c : RankRow} (h1 : rankLe a b = true) (h2 : rankLe b c = true) :
    rankLe a c = true := by
  rw [rankLe_iff] at h1 h2 ⊢
  rcases h1 with h1 | ⟨hT1, h1⟩
  · rcases h2 with h2 | ⟨hT2, -⟩ <;> exact Or.inl (by omega)
  · rcases h2 with h2 | ⟨hT2, h2⟩
    · exact Or.inl (by omega)
    · refine Or.inr ⟨by omega, ?_⟩
      rcases h1 with h1 | ⟨hQ1, h1⟩
      · rcases h2 with h2 | ⟨hQ2, -⟩ <;> exact Or.inl (by omega)
      · rcases h2 with h2 | ⟨hQ2, h2⟩
        · exact Or.inl (by omega)
        · refine Or.inr ⟨by omega, ?_⟩
          rcases h1 with h1 | ⟨hM1f, hM1g, hB1⟩
          · rcases h2 with h2 | ⟨hM2f, hM2g, hB2⟩
            · exact Or.inl (strLt_trans h1 h2)
            · have hbc : b.MOTORISTA = c.MOTORISTA := strLt_connex hM2f hM2g
              exact Or.inl (hbc ▸ h1)
          · have hab : a.MOTORISTA = b.MOTORISTA := strLt_connex hM1f hM1g
            rcases h2 with h2 | ⟨hM2f, hM2g, hB2⟩
            · exact Or.inl (by rw [hab]; exact h2)
            · refine Or.inr ⟨?_, ?_, strLe_trans hB1 hB2⟩
              · rw [hab]; exact hM2f
              · rw [hab]; exact hM2g

theorem rankLe_total_le {a b : RankRow} (h : rankLe a b = true) :
    b.TOTAL_MOTORISTA ≤ a.TOTAL_MOTORISTA := by
  rw [rankLe_iff] at h
  rcases h with h | ⟨h, -⟩ <;> omega

theorem rankLe_within {a b : RankRow} (h : rankLe a b = true)
    (hT : a.TOTAL_MOTORISTA = b.TOTAL_MOTORISTA) (hM : a.MOTORISTA = b.MOTORISTA) :
    withinRel a b := by
  rw [rankLe_iff] at h
  rcases h with h | ⟨-, h⟩
  · omega
  · rcases h with h | ⟨hQ, h⟩
    · exact Or.inl h
    · refine Or.inr ⟨hQ, ?_⟩
      rcases h with h | ⟨-, -, hB⟩
      · rw [hM, strLt_irrefl] at h
        exact Bool.noConfusion h
      · exact hB

theorem rankTable_total {l : List Row} {row : RankRow} (h : row ∈ rankTable l) :
    row.TOTAL_MOTORISTA = driverTotal l row.MOTORISTA := by
  unfold rankTable at h
  rw [mem_sortBy] at h
  obtain ⟨k, hk, he⟩ := List.mem_map.mp h
  rw [← he]

theorem rankTable_pairwise (l : List Row) :
    List.Pairwise (fun x y => rankLe x y = true) (rankTable l) :=
  pairwise_sortBy rankLe rankLe_total (fun _ _ _ => rankLe_trans) _

/-- C3 counterexample: on `dfTie` (drivers `A` and `B` tied on grand total
4) the day-0 ranking comes out in driver order A, B, B, A — the two rows of
driver `A` are separated by the rows of driver `B`, because the sort puts
the pair count before the driver name once the grand totals tie.  This
refutes the claim that rows sharing a driver are always contiguous. -/
theorem c3_counterexample :
    rankTie.map (fun r => r.MOTORISTA) = ["A", "B", "B", "A"] ∧
      ¬DriverContiguous rankTie := by
  constructor
  · rfl
  · intro hc
    have h01 : (⟨0, by decide⟩ : Fin rankTie.length) < ⟨1, by decide⟩ := by decide
    have h13 : (⟨1, by decide⟩ : Fin rankTie.length) < ⟨3, by decide⟩ := by decide
    have hAA : (rankTie.get (⟨0, by decide⟩ : Fin rankTie.length)).MOTORISTA =
        (rankTie.get (⟨3, by decide⟩ : Fin rankTie.length)).MOTORISTA := rfl
    have := hc ⟨0, by decide⟩ ⟨1, by decide⟩ ⟨3, by decide⟩ h01 h13 hAA
    exact absurd this (by decide)

/-- C3 (amended): the daily ranking is the (driver, neighborhood) group
counts sorted by (driver total desc, count desc, driver asc, neighborhood
asc) truncated to 20 rows, it never exceeds 20 rows, each row carries its
driver's true grand total, and rows of one driver appear in count-desc /
neighborhood-asc relative order; rows sharing a driver are contiguous
whenever no two distinct drivers in the output share a grand total (the
counterexample shows the unconditional claim fails on ties). -/
theorem c3_ranking_amended (df : DataFrame) (d : ℕ) (rep : DailyReport)
    (h : processar_dados_diarios df d = Except.ok rep) :
    rep.rank.length ≤ 20 ∧
    (df.hasMOTORISTA = true → df.hasBAIRRO = true →
      rep.rank = (rankTable (dailyBase df d)).take 20) ∧
    List.Pairwise (fun x y => rankLe x y = true) rep.rank ∧
    (∀ row ∈ rep.rank, row.TOTAL_MOTORISTA = driverTotal (dailyBase df d) row.MOTORISTA) ∧
    (∀ m : String, List.Pairwise withinRel (rep.rank.filter (fun x => x.MOTORISTA == m))) ∧
    ((∀ r1 ∈ rep.rank, ∀ r2 ∈ rep.rank,
        r1.TOTAL_MOTORISTA = r2.TOTAL_MOTORISTA → r1.MOTORISTA = r2.MOTORISTA) →
      DriverContiguous rep.rank) := by
  obtain ⟨hrep, -, -, -⟩ := daily_ok h
  subst hrep
  have hrank : (mkDailyReport df d).rank =
      (if df.hasMOTORISTA && df.hasBAIRRO then (rankTable (dailyBase df d)).take 20
        else []) := rfl
  rw [hrank]
  by_cases hMB : (df.hasMOTORISTA && df.hasBAIRRO) = true
  case neg =>
    rw [if_neg hMB]
    refine ⟨by simp, ?_, by simp, by simp, by simp, ?_⟩
    · intro hM hB
      rw [hM, hB] at hMB
      exact absurd rfl hMB
    · intro _ i _ _ _ _ _
      exact absurd i.2 (by simp)
  case pos =>
    rw [if_pos hMB]
    have hsub : ((rankTable (dailyBase df d)).take 20).Sublist (rankTable (dailyBase df d)) :=
      List.take_sublist 20 _
    have hpw : List.Pairwise (fun x y => rankLe x y = true)
        ((rankTable (dailyBase df d)).take 20) :=
      List.Pairwise.sublist hsub (rankTable_pairwise _)
    have hmem : ∀ row ∈ (rankTable (dailyBase df d)).take 20,
        row.TOTAL_MOTORISTA = driverTotal (dailyBase df d) row.MOTORISTA := by
      intro row hrow
      exact rankTable_total (hsub.subset hrow)
    refine ⟨List.length_take_le 20 _, fun _ _ => rfl, hpw, hmem, ?_, ?_⟩
    · intro m
      have hfil := List.Pairwise.filter (R := fun x y => rankLe x y = true)
        (fun x => x.MOTORISTA == m) hpw
      refine List.Pairwise.imp_of_mem ?_ hfil
      intro a b ha hb hR
      have ham := (List.mem_filter.mp ha)
      have hbm := (List.mem_filter.mp hb)
      have haM : a.MOTORISTA = m := by simpa using ham.2
      have hbM : b.MOTORISTA = m := by simpa using hbm.2
      have hMab : a.MOTORISTA = b.MOTORISTA := by rw [haM, hbM]
      have hTa := hmem a ham.1
      have hTb := hmem b hbm.1
      have hTab : a.TOTAL_MOTORISTA = b.TOTAL_MOTORISTA := by
        rw [hTa, hTb, hMab]
      exact rankLe_within hR hTab hMab
    · intro hdist i k j hik hkj hMij
      have hik2 := List.pairwise_iff_get.mp hpw i k hik
      have hkj2 := List.pairwise_iff_get.mp hpw k j hkj
      have h1 := rankLe_total_le hik2
      have h2 := rankLe_total_le hkj2
      have hTi := hmem _ (List.get_mem _ i.1 i.2)
      have hTj := hmem _ (List.get_mem _ j.1 j.2)
      have hTk := hmem _ (List.get_mem _ k.1 k.2)
      have hTij : (((rankTable (dailyBase df d)).take 20).get i).TOTAL_MOTORISTA =
          (((rankTable (dailyBase df d)).take 20).get j).TOTAL_MOTORISTA := by
        rw [hTi, hTj, hMij]
      have hTki : (((rankTable (dailyBase df d)).take 20).get k).TOTAL_MOTORISTA =
          (((rankTable (dailyBase df d)).take 20).get i).TOTAL_MOTORISTA := by omega
      exact hdist _ (List.get_mem _ k.1 k.2) _ (List.get_mem _ i.1 i.2) hTki

/-- Witness for C3 (amended) on `dfDist`, whose two drivers have distinct
grand totals: the ranking has at most 20 rows, equals the sorted-truncated
group table, and its driver blocks are contiguous. -/
theorem c3_witness :
    (mkDailyReport dfDist 0).rank.length ≤ 20 ∧
    (mkDailyReport dfDist 0).rank = (rankTable (dailyBase dfDist 0)).take 20 ∧
    DriverContiguous (mkDailyReport dfDist 0).rank := by
  have h := c3_ranking_amended dfDist 0 (mkDailyReport dfDist 0) rfl
  exact ⟨h.1, h.2.1 rfl rfl, h.2.2.2.2.2 (by decide)⟩

/-- C4 counterexample: `dfNoMot` lacks the `MOTORISTA` column, yet daily
aggregation for day 0 succeeds — no missing-column error is raised when
building the ranking (the source guards the ranking and degrades it to an
empty frame).  Conversely, on `dfNoMotJ1` (one record in window J1) the
aggregation fails while building the J1 detail table, with a `KeyError`
rather than the claimed `MissingColumn`-at-ranking. -/
theorem c4_counterexample :
    dfNoMot.hasMOTORISTA = false ∧
    (processar_dados_diarios dfNoMot 0).isOk = true ∧
    dfNoMotJ1.hasMOTORISTA = false ∧
    processar_dados_diarios dfNoMotJ1 0 = Except.error (Err.keyError "MOTORISTA") :=
  ⟨rfl, rfl, rfl, rfl⟩

/-- C4 (amended): when the driver or neighborhood column is missing, the
daily aggregator never raises a missing-column error; on success the
ranking (and both detail tables) degrade to empty, and whenever window J1
or J4 has rows the run fails with the pandas `KeyError` raised by the
detail-table `groupby` — not with `MissingColumn`, and not at the ranking,
which is explicitly guarded. -/
theorem c4_missing_columns_amended (df : DataFrame) (d : ℕ)
    (hD : df.hasDTHRSAIDA = true)
    (hMB : df.hasMOTORISTA = false ∨ df.hasBAIRRO = false) :
    (∀ c, processar_dados_diarios df d ≠ Except.error (Err.missingColumn c)) ∧
    (∀ rep, processar_dados_diarios df d = Except.ok rep →
      rep.rank = [] ∧ rep.J1_dist = [] ∧ rep.J4_dist = []) ∧
    ((dailyBaseJ df d Janela.J1 ≠ [] ∨ dailyBaseJ df d Janela.J4 ≠ []) →
      processar_dados_diarios df d =
        Except.error (Err.keyError (if df.hasMOTORISTA then "BAIRRO" else "MOTORISTA"))) := by
  have hMBn : ¬(df.hasMOTORISTA = true ∧ df.hasBAIRRO = true) := by
    rcases hMB with h | h <;> simp [h]
  refine ⟨?_, ?_, ?_⟩
  · intro c hc
    have hfalse := (daily_missingColumn_iff df d).mp ⟨c, hc⟩
    rw [hD] at hfalse
    exact Bool.noConfusion hfalse
  · intro rep hrep
    obtain ⟨hr, -, -, hkey⟩ := daily_ok hrep
    subst hr
    have hJ : dailyBaseJ df d Janela.J1 = [] ∧ dailyBaseJ df d Janela.J4 = [] := by
      by_contra hc
      exact hkey ⟨by tauto, hMBn⟩
    refine ⟨?_, ?_, ?_⟩
    · show (if df.hasMOTORISTA && df.hasBAIRRO then (rankTable (dailyBase df d)).take 20
        else []) = []
      rw [if_neg (by rw [Bool.and_eq_true]; exact hMBn)]
    · show (if dailyBaseJ df d Janela.J1 = [] then []
        else distTable (dailyBaseJ df d Janela.J1)) = []
      rw [if_pos hJ.1]
    · show (if dailyBaseJ df d Janela.J4 = [] then []
        else distTable (dailyBaseJ df d Janela.J4)) = []
      rw [if_pos hJ.2]
  · intro hJ
    have hne : dailyBase df d ≠ [] := by
      rcases hJ with hJ | hJ <;> intro hb <;> apply hJ <;> unfold dailyBaseJ <;>
        rw [hb] <;> rfl
    exact daily_keyError hD hne hJ hMBn

/-- Witness for C4 (amended): the J1-record run fails with the `KeyError`
naming `MOTORISTA`, and the successful run has an empty ranking. -/
theorem c4_witness :
    processar_dados_diarios dfNoMotJ1 0 = Except.error (Err.keyError "MOTORISTA") ∧
    (mkDailyReport dfNoMot 0).rank = [] := by
  have h1 := c4_missing_columns_amended dfNoMotJ1 0 rfl (Or.inl rfl)
  have h2 := c4_missing_columns_amended dfNoMot 0 rfl (Or.inl rfl)
  exact ⟨h1.2.2 (Or.inl (by decide)), (h2.2.1 (mkDailyReport dfNoMot 0) rfl).1⟩

theorem daily_total_pos {df : DataFrame} {d : ℕ} {rep : DailyReport}
    (h : processar_dados_diarios df d = Except.ok rep) : 0 < rep.TOTAL := by
  obtain ⟨hrep, -, hne, -⟩ := daily_ok h
  subst hrep
  show 0 < (dailyBase df d).length
  exact List.length_pos.mpr hne

theorem periodLoop_ok {df : DataFrame} {ds : List ℕ} {kept : List (ℕ × DailyReport)}
    (h : periodLoop df ds = Except.ok kept) :
    kept.map Prod.fst = ds ∧
      ∀ p ∈ kept, processar_dados_diarios df p.1 = Except.ok p.2 := by
  induction ds generalizing kept with
  | nil =>
    simp only [periodLoop] at h
    obtain rfl := (Except.ok.inj h).symm
    exact ⟨rfl, by simp⟩
  | cons d dsx ih =>
    simp only [periodLoop] at h
    cases hd : processar_dados_diarios df d with
    | error e =>
      simp only [hd] at h
      exact Except.noConfusion h
    | ok rep =>
      simp only [hd] at h
      cases hr : periodLoop df dsx with
      | error e =>
        simp only [hr] at h
        exact Except.noConfusion h
      | ok rest =>
        simp only [hr] at h
        rw [if_neg (by have := daily_total_pos hd; omega)] at h
        obtain rfl := (Except.ok.inj h).symm
        obtain ⟨hmap, hmem⟩ := ih hr
        refine ⟨by simp [hmap], ?_⟩
        intro p hp
        rcases List.mem_cons.mp hp with hp | hp
        · subst hp
          exact hd
        · exact hmem p hp

theorem period_ok {df : DataFrame} {di dfim : ℕ} {P : PeriodReport}
    (h : processar_dados_periodo df di dfim = Except.ok P) :
    ∃ kept, periodLoop df (datasPeriodo df di dfim) = Except.ok kept ∧
      P = mkPeriodReport df di dfim kept ∧
      df.hasDTHRSAIDA = true ∧ datasPeriodo df di dfim ≠ [] ∧ kept ≠ [] ∧
      df.hasSITUACAO = true ∧ df.hasMOTORISTA = true ∧ df.hasBAIRRO = true := by
  unfold processar_dados_periodo at h
  cases hl : periodLoop df (datasPeriodo df di dfim) with
  | error e =>
    simp only [hl] at h
    split_ifs at h
  | ok kept =>
    simp only [hl] at h
    split_ifs at h with h1 h2 h3 h4 h5 h6
    all_goals
      first
        | exact Except.noConfusion h
        | exact ⟨kept, rfl, (Except.ok.inj h).symm, bool_not_false h1, h2, h3,
            bool_not_false h4, bool_not_false h5, bool_not_false h6⟩

theorem mem_datasPeriodo (df : DataFrame) (di dfim d : ℕ) :
    d ∈ datasPeriodo df di dfim ↔
      di ≤ d ∧ d ≤ dfim ∧ ∃ r ∈ df.rows, ∃ t, r.dthrsaida = some t ∧ t.day = d := by
  unfold datasPeriodo datasCandidatas
  rw [List.mem_filter, mem_sortBy, List.mem_dedup]
  constructor
  · rintro ⟨hmem, hrange⟩
    obtain ⟨t, ht, hd⟩ := List.mem_map.mp hmem
    obtain ⟨r, hr, hrt⟩ := List.mem_filterMap.mp ht
    have hb := hrange
    simp only [Bool.and_eq_true, decide_eq_true_eq] at hb
    exact ⟨hb.1, hb.2, r, hr, t, hrt, hd⟩
  · rintro ⟨h1, h2, r, hr, t, hrt, hd⟩
    refine ⟨List.mem_map.mpr ⟨t, List.mem_filterMap.mpr ⟨r, hr, hrt⟩, hd⟩, ?_⟩
    simp only [Bool.and_eq_true, decide_eq_true_eq]
    exact ⟨h1, h2⟩

theorem nodup_datasPeriodo (df : DataFrame) (di dfim : ℕ) :
    (datasPeriodo df di dfim).Nodup := by
  unfold datasPeriodo datasCandidatas
  refine List.Nodup.filter _ ?_
  exact ((perm_sortBy _ _).nodup_iff).mpr (List.nodup_dedup _)

theorem nodup_all_eq_singleton {l : List ℕ} {a : ℕ} (hnd : l.Nodup)
    (hall : ∀ x ∈ l, x = a) (hne : l ≠ []) : l = [a] := by
  cases l with
  | nil => exact absurd rfl hne
  | cons x xs =>
    have hx := hall x (List.mem_cons_self x xs)
    subst hx
    cases xs with
    | nil => rfl
    | cons y ys =>
      have hy : y = x := hall y (by simp)
      exact absurd (List.mem_cons.mpr (Or.inl hy.symm)) (List.nodup_cons.mp hnd).1

theorem mem_dailyBase_of {df : DataFrame} {d : ℕ} {r : Row} {t : Timestamp}
    (hr : r ∈ df.rows) (ht : r.dthrsaida = some t) (hd : t.day = d) :
    r ∈ dailyBase df d := by
  unfold dailyBase
  refine List.mem_filter.mpr ⟨hr, ?_⟩
  rw [ht]
  simp [hd]

theorem periodLoop_total {df : DataFrame} (hD : df.hasDTHRSAIDA = true)
    (hM : df.hasMOTORISTA = true) (hB : df.hasBAIRRO = true) (ds : List ℕ)
    (hds : ∀ d ∈ ds, dailyBase df d ≠ []) :
    periodLoop df ds = Except.ok (ds.map (fun d => (d, mkDailyReport df d))) := by
  induction ds with
  | nil => rfl
  | cons d dsx ih =>
    have hsucc := daily_success hD (hds d (by simp)) ⟨hM, hB⟩
    have hrest := ih (fun x hx => hds x (by simp [hx]))
    simp only [periodLoop, hsucc, hrest]
    rw [if_neg ?_]
    · simp
    · show ¬(mkDailyReport df d).TOTAL = 0
      have : 0 < (dailyBase df d).length := List.length_pos.mpr (hds d (by simp))
      show ¬(dailyBase df d).length = 0
      omega

/-- C7: whenever period aggregation succeeds, its total, delivered,
returned, in-transit and per-window counts each equal the sum of the
corresponding field over the per-kept-day daily reports produced by the
daily aggregator on the enumerated dates (all of which succeed). -/
theorem c7_period_sums (df : DataFrame) (di dfim : ℕ) (P : PeriodReport)
    (h : processar_dados_periodo df di dfim = Except.ok P) :
    ∃ kept : List (ℕ × DailyReport),
      periodLoop df (datasPeriodo df di dfim) = Except.ok kept ∧
      kept.map Prod.fst = datasPeriodo df di dfim ∧
      (∀ p ∈ kept, processar_dados_diarios df p.1 = Except.ok p.2) ∧
      P.TOTAL = (kept.map (fun p => p.2.TOTAL)).sum ∧
      P.ENTREGUE = (kept.map (fun p => p.2.ENTREGUE)).sum ∧
      P.DEVOLVIDO = (kept.map (fun p => p.2.DEVOLVIDO)).sum ∧
      P.EM_ENTREGA = (kept.map (fun p => p.2.EM_ENTREGA)).sum ∧
      P.J1 = (kept.map (fun p => p.2.J1)).sum ∧
      P.J2 = (kept.map (fun p => p.2.J2)).sum ∧
      P.J3 = (kept.map (fun p => p.2.J3)).sum ∧
      P.J4 = (kept.map (fun p => p.2.J4)).sum ∧
      P.J5 = (kept.map (fun p => p.2.J5)).sum := by
  obtain ⟨kept, hl, hP, -, -, -, -, -, -⟩ := period_ok h
  subst hP
  obtain ⟨hmap, hmem⟩ := periodLoop_ok hl
  exact ⟨kept, hl, hmap, hmem, rfl, rfl, rfl, rfl, rfl, rfl, rfl, rfl, rfl⟩

/-- Witness for C7 on the two-day spreadsheet `dfFull`: the period total is
the sum of the two daily totals. -/
theorem c7_witness :
    (mkPeriodReport dfFull 0 1
        [(0, mkDailyReport dfFull 0), (1, mkDailyReport dfFull 1)]).TOTAL =
      (mkDailyReport dfFull 0).TOTAL + (mkDailyReport dfFull 1).TOTAL := by
  obtain ⟨kept, hl, hmap, hmem, hTOT, -⟩ := c7_period_sums dfFull 0 1
    (mkPeriodReport dfFull 0 1 [(0, mkDailyReport dfFull 0), (1, mkDailyReport dfFull 1)]) rfl
  have hl2 : periodLoop dfFull (datasPeriodo dfFull 0 1) =
      Except.ok [(0, mkDailyReport dfFull 0), (1, mkDailyReport dfFull 1)] := rfl
  rw [hl2] at hl
  have hk := Except.ok.inj hl
  rw [hTOT, ← hk]
  simp

/-- C8: each scaled window target of a successful period aggregation equals
the fixed daily target times the number of kept days, the scaled total
target is `100 × n`, and a single-day period (`start = end`) has `n = 1`
and targets identical to the plain daily targets. -/
theorem c8_scaled_targets (df : DataFrame) (di dfim : ℕ) (P : PeriodReport)
    (h : processar_dados_periodo df di dfim = Except.ok P) :
    (P.META_J1 = meta Janela.J1 * P.N_DIAS ∧ P.META_J2 = meta Janela.J2 * P.N_DIAS ∧
     P.META_J3 = meta Janela.J3 * P.N_DIAS ∧ P.META_J4 = meta Janela.J4 * P.N_DIAS ∧
     P.META_J5 = meta Janela.J5 * P.N_DIAS ∧ P.META_TOTAL = 100 * P.N_DIAS) ∧
    (di = dfim → P.N_DIAS = 1 ∧ P.META_J1 = 30 ∧ P.META_J2 = 20 ∧ P.META_J3 = 10 ∧
      P.META_J4 = 30 ∧ P.META_J5 = 10 ∧ P.META_TOTAL = 100) := by
  obtain ⟨kept, hl, hP, hD, hne, hkne, -, -, -⟩ := period_ok h
  subst hP
  refine ⟨⟨rfl, rfl, rfl, rfl, rfl, rfl⟩, ?_⟩
  intro hdd
  subst hdd
  obtain ⟨hmap, -⟩ := periodLoop_ok hl
  have hall : ∀ x ∈ datasPeriodo df di di, x = di := by
    intro x hx
    have hb := (List.mem_filter.mp hx).2
    simp only [Bool.and_eq_true, decide_eq_true_eq] at hb
    omega
  have hsing : datasPeriodo df di di = [di] :=
    nodup_all_eq_singleton (nodup_datasPeriodo df di di) hall hne
  have hlen : kept.length = 1 := by
    have hc := congrArg List.length hmap
    rw [hsing] at hc
    simpa using hc
  have hmeta : ∀ c : ℕ, c * kept.length = c * 1 := fun c => by rw [hlen]
  exact ⟨hlen, (hmeta _).trans (by decide), (hmeta _).trans (by decide),
    (hmeta _).trans (by decide), (hmeta _).trans (by decide), (hmeta _).trans (by decide),
    (hmeta _).trans (by decide)⟩

/-- Witness for C8 on the single-day period over `dfFull`. -/
theorem c8_witness :
    (mkPeriodReport dfFull 0 0 [(0, mkDailyReport dfFull 0)]).N_DIAS = 1 ∧
    (mkPeriodReport dfFull 0 0 [(0, mkDailyReport dfFull 0)]).META_J1 = 30 ∧
    (mkPeriodReport dfFull 0 0 [(0, mkDailyReport dfFull 0)]).META_TOTAL = 100 := by
  have h := c8_scaled_targets dfFull 0 0
    (mkPeriodReport dfFull 0 0 [(0, mkDailyReport dfFull 0)]) rfl
  exact ⟨(h.2 rfl).1, (h.2 rfl).2.1, (h.2 rfl).2.2.2.2.2.2⟩

/-- C9: an integer vehicle code and its float-tagged form map to the same
label (`5` and `5.0` both give `05 - Utilitário (HR)`), an unmapped or
missing code falls back to `Outro / Não mapeado`, and when the `TPRODADO`
column is absent the period aggregator produces the empty vehicle table
with the same column shape instead of failing. -/
theorem c9_vehicle_map (df : DataFrame) (di dfim : ℕ) :
    veiculoTipo (some (PyNum.int 5)) = veiculoTipo (some (PyNum.float 5 1)) ∧
    veiculoTipo (some (PyNum.int 5)) = "05 - Utilitário (HR)" ∧
    veiculoTipo (some (PyNum.int 99)) = "Outro / Não mapeado" ∧
    veiculoTipo none = "Outro / Não mapeado" ∧
    (df.hasTPRODADO = false → ∀ P, processar_dados_periodo df di dfim = Except.ok P →
      P.VEICULO_ANALISE = ⟨veicCols, []⟩) := by
  refine ⟨rfl, rfl, rfl, rfl, ?_⟩
  intro hT P h
  obtain ⟨kept, -, hP, -, -, -, -, -, -⟩ := period_ok h
  subst hP
  show veicTable df (basePeriodo df (datasPeriodo df di dfim)) = ⟨veicCols, []⟩
  unfold veicTable
  rw [if_neg (by rw [hT]; simp)]

/-- Witness for C9: a successful period run over `dfNoVeic` (no `TPRODADO`
column) yields the empty vehicle table with the standard columns. -/
theorem c9_witness :
    (mkPeriodReport dfNoVeic 0 1
        [(0, mkDailyReport dfNoVeic 0), (1, mkDailyReport dfNoVeic 1)]).VEICULO_ANALISE =
      ⟨veicCols, []⟩ :=
  (c9_vehicle_map dfNoVeic 0 1).2.2.2.2 rfl
    (mkPeriodReport dfNoVeic 0 1
      [(0, mkDailyReport dfNoVeic 0), (1, mkDailyReport dfNoVeic 1)]) rfl

/-- C10 counterexample: on `dfNoMotJ1` (a J1-window record, `MOTORISTA`
column absent) the set of in-range dates is the non-empty `[0]`, yet the
per-day daily aggregation for the enumerated date 0 fails (with the
detail-table `KeyError`), so the period aggregation fails too — refuting
the claim that every enumerated date's daily aggregation succeeds. -/
theorem c10_counterexample :
    datasPeriodo dfNoMotJ1 0 0 = [0] ∧
    processar_dados_diarios dfNoMotJ1 0 = Except.error (Err.keyError "MOTORISTA") ∧
    processar_dados_periodo dfNoMotJ1 0 0 = Except.error (Err.keyError "MOTORISTA") :=
  ⟨rfl, rfl, rfl⟩

/-- C10 (amended): every enumerated in-range date is backed by a record
with a non-null departure timestamp on that date, so no per-day run can
fail with the no-data error; and when the driver and neighborhood columns
are present (so the detail-table `KeyError` cannot fire), every per-day run
succeeds with total at least 1, no day is skipped, the number of kept days
equals the number of distinct in-range dates, and the post-skip no-data
branch is unreachable. -/
theorem c10_no_skip_amended (df : DataFrame) (di dfim : ℕ)
    (hD : df.hasDTHRSAIDA = true) (hne : datasPeriodo df di dfim ≠ []) :
    (∀ d ∈ datasPeriodo df di dfim,
      ∃ r ∈ df.rows, ∃ t, r.dthrsaida = some t ∧ t.day = d) ∧
    (∀ d ∈ datasPeriodo df di dfim,
      processar_dados_diarios df d ≠ Except.error Err.noData) ∧
    (df.hasMOTORISTA = true → df.hasBAIRRO = true →
      ∃ kept, periodLoop df (datasPeriodo df di dfim) = Except.ok kept ∧
        kept.map Prod.fst = datasPeriodo df di dfim ∧
        kept.length = (datasPeriodo df di dfim).length ∧ kept ≠ [] ∧
        ∀ p ∈ kept, processar_dados_diarios df p.1 = Except.ok p.2 ∧ 1 ≤ p.2.TOTAL) := by
  have hbase : ∀ d ∈ datasPeriodo df di dfim, dailyBase df d ≠ [] := by
    intro d hd
    obtain ⟨-, -, r, hr, t, hrt, htd⟩ := (mem_datasPeriodo df di dfim d).mp hd
    exact List.ne_nil_of_mem (mem_dailyBase_of hr hrt htd)
  refine ⟨?_, ?_, ?_⟩
  · intro d hd
    obtain ⟨-, -, r, hr, t, hrt, htd⟩ := (mem_datasPeriodo df di dfim d).mp hd
    exact ⟨r, hr, t, hrt, htd⟩
  · intro d hd hno
    exact hbase d hd ((daily_noData_iff df d hD).mp hno)
  · intro hM hB
    refine ⟨(datasPeriodo df di dfim).map (fun d => (d, mkDailyReport df d)),
      periodLoop_total hD hM hB _ hbase,
      by rw [List.map_map]; exact List.map_id _, by simp, ?_, ?_⟩
    · intro hnil
      exact hne (List.map_eq_nil_iff.mp hnil)
    · intro p hp
      obtain ⟨d, hd, hpe⟩ := List.mem_map.mp hp
      subst hpe
      refine ⟨daily_success hD (hbase d hd) ⟨hM, hB⟩, ?_⟩
      show 1 ≤ (dailyBase df d).length
      exact List.length_pos.mpr (hbase d hd)

/-- Witness for C10 (amended) on `dfFull` over days 0..1: both enumerated
days are kept and neither daily run fails. -/
theorem c10_witness :
    periodLoop dfFull (datasPeriodo dfFull 0 1) =
      Except.ok [(0, mkDailyReport dfFull 0), (1, mkDailyReport dfFull 1)] ∧
    (datasPeriodo dfFull 0 1).length = 2 ∧
    processar_dados_diarios dfFull 0 ≠ Except.error Err.noData := by
  have h := c10_no_skip_amended dfFull 0 1 rfl (by decide)
  obtain ⟨kept, hl, -, -, -, -⟩ := h.2.2 rfl rfl
  exact ⟨rfl, rfl, h.2.1 0 (by decide)⟩

end Oliveira
